import Mathlib

/-!
Verification development for the GoTutor repository: a shallow embedding of
the analysis pipeline of `enhanced_go_tutor.py` and of the event handling and
move normalization of `real_ogs_connector.py`, with theorems settling the
spec's claims about them.

Conventions of the embedding:
* Python `int` values are `Int`; list indices and move counts are `Nat`.
* Python strings are Lean `String` (a packed `List Char`).
* A Python function that can raise to its caller is embedded with an
  `Option` result, `none` standing for the propagated exception.
* `random.random()` / `random.randint` draws are explicit inputs: a function
  that consumes draws takes them as an argument, so the code's dependence on
  chance is visible in the type.
-/

namespace GoTutor

/-- Python `range(n)` for a possibly negative bound: empty when `n ≤ 0`. -/
def pyRange (n : Int) : List Nat :=
  if n ≤ 0 then [] else List.range n.toNat

/-- Decimal digit characters of a natural number, as Python `str` renders it. -/
def natDigits (n : Nat) : List Char :=
  Nat.toDigits 10 n

/-- Python `str(i)` for an int: a minus sign followed by the decimal digits
when negative, the decimal digits otherwise. -/
def intStr (i : Int) : List Char :=
  if i < 0 then '-' :: natDigits i.natAbs else natDigits i.toNat

/-- Value of a nonempty all-digit character list; `none` when the list is
empty or holds a non-digit. -/
def digitsVal : List Char → Option Nat
  | [] => none
  | s => s.foldl (fun acc c =>
      acc.bind fun a => if c.isDigit then some (10 * a + (c.toNat - 48)) else none)
      (some 0)

/-- Python `int(s)` on the strings this code passes it: an optional sign
followed by decimal digits; `none` models the `ValueError` raised otherwise. -/
def pyInt : List Char → Option Int
  | '-' :: rest => (digitsVal rest).map (fun n => -(n : Int))
  | '+' :: rest => (digitsVal rest).map (fun n => (n : Int))
  | s => (digitsVal s).map (fun n => (n : Int))

/-! ## enhanced_go_tutor.py -/

/-- `GamePhase` enum of enhanced_go_tutor.py. -/
inductive GamePhase
  | opening
  | middle_game
  | endgame
deriving DecidableEq, Repr

/-- `Move` dataclass of enhanced_go_tutor.py. -/
structure Move where
  x : Int
  y : Int
  color : String
  move_number : Nat
deriving DecidableEq, Repr

/-- The 19-letter board alphabet `"ABCDEFGHJKLMNOPQRST"` (skips the letter I),
shared by `Move.to_coords`, `_parse_coordinate` and `_parse_moves`. -/
def lettersL : List Char :=
  "ABCDEFGHJKLMNOPQRST".toList

/-- `Move.to_coords`: `letters[self.x]` concatenated with `str(self.y + 1)`
when `0 <= x <= 18`, else the fallback `f"({x},{y})"` rendering. -/
def Move.to_coords (m : Move) : String :=
  if 0 ≤ m.x ∧ m.x ≤ 18 then
    String.mk (lettersL.getD m.x.toNat 'A' :: intStr (m.y + 1))
  else
    String.mk ('(' :: (intStr m.x ++ ',' :: (intStr m.y ++ [')'])))

/-- `EnhancedGoTutor._parse_coordinate`: a string of length ≥ 2 has its first
character upper-cased and its tail read by `int` (a failure there raises,
hence `none`); the letter's index in the board alphabet (0 when absent) and
`number - 1` become the move's coordinates. A shorter string yields the
default move at (3,3). -/
def parse_coordinate (coord : String) (color : String) (move_num : Nat) : Option Move :=
  match coord.toList with
  | c :: c2 :: rest =>
    let letter := c.toUpper
    match pyInt (c2 :: rest) with
    | none => none
    | some number =>
      let x : Int := if letter ∈ lettersL then (lettersL.indexOf letter : Nat) else 0
      some { x := x, y := number - 1, color := color, move_number := move_num }
  | _ => some { x := 3, y := 3, color := color, move_number := move_num }

/-- `EnhancedGoTutor._determine_phase` as a function of the move count. -/
def determine_phase (move_count : Nat) : GamePhase :=
  if move_count < 30 then .opening
  else if move_count < 120 then .middle_game
  else .endgame

/-- Rank of a phase in game order, to state monotonicity of the classifier. -/
def phase_rank : GamePhase → Nat
  | .opening => 0
  | .middle_game => 1
  | .endgame => 2

/-- A joseki record of `JosekiDatabase._load_joseki_patterns`. -/
structure Joseki where
  name : String
  moves : List String
  description : String
  phase : String
  advice : String
  variations : List String
deriving DecidableEq, Repr

/-- The static joseki catalog, in catalog order. -/
def josekis : List Joseki :=
  [ { name := "3-4 Point Approach"
    , moves := ["D4", "Q16", "R14", "Q14"]
    , description := "Standard approach to 3-4 point"
    , phase := "opening"
    , advice := "This creates influence while maintaining corner territory"
    , variations := ["R15", "Q15", "R17"] }
  , { name := "Diagonal Fuseki"
    , moves := ["D4", "Q16", "D16", "Q4"]
    , description := "Balanced diagonal opening"
    , phase := "opening"
    , advice := "Creates balanced influence in all corners"
    , variations := ["R17", "D17", "C3"] }
  , { name := "Chinese Opening"
    , moves := ["D4", "Q16", "Q4", "C6"]
    , description := "Chinese fuseki setup"
    , phase := "opening"
    , advice := "Emphasizes side territory and influence"
    , variations := ["C10", "F3", "R6"] }
  , { name := "Pincer Attack"
    , moves := ["D4", "Q16", "R14", "R12"]
    , description := "Pincer against approach move"
    , phase := "opening"
    , advice := "Creates pressure on opponent's stone"
    , variations := ["R11", "R13", "Q12"] }
  , { name := "Knight's Move Enclosure"
    , moves := ["D4", "F3"]
    , description := "Secure corner territory"
    , phase := "opening"
    , advice := "Solid corner development, good for beginners"
    , variations := ["C6", "E3", "C3"] } ]

/-- The dict `check_joseki` returns: the matched record's fields merged with
the match statistics. -/
structure JosekiMatchInfo where
  joseki : Joseki
  matched_moves : Nat
  total_moves : Nat
  is_complete : Bool
deriving DecidableEq, Repr

/-- `JosekiDatabase.check_joseki`: `None` for fewer than 2 recent moves; else,
for each record in catalog order and each start index
`i in range(len(recent_moves) - len(joseki_moves) + 1)`, the slice
`recent_moves[i : i + len(joseki_moves)]` is compared with
`joseki_moves[:len(sequence)]`, and the first record with a matching slice is
returned with `matched_moves`, `total_moves` and `is_complete`. -/
def check_joseki (recent_moves : List String) : Option JosekiMatchInfo :=
  if recent_moves.length < 2 then none
  else
    josekis.findSome? fun joseki =>
      (pyRange ((recent_moves.length : Int) - joseki.moves.length + 1)).findSome? fun i =>
        let sequence := (recent_moves.drop i).take joseki.moves.length
        if sequence = joseki.moves.take sequence.length then
          some { joseki := joseki
               , matched_moves := sequence.length
               , total_moves := joseki.moves.length
               , is_complete := sequence.length == joseki.moves.length }
        else none

/-- `Pattern` dataclass of enhanced_go_tutor.py. -/
structure Pattern where
  name : String
  description : String
  positions : List (Int × Int)
  colors : List String
  advice : String
  difficulty : String
deriving DecidableEq, Repr

/-- `PatternRecognizer._load_tactical_patterns`. -/
def tactical_patterns : List Pattern :=
  [ { name := "Ladder", description := "Sequence of atari moves"
    , positions := [(0,0), (1,1), (0,2), (1,3)]
    , colors := ["black", "white", "black", "white"]
    , advice := "Check if the ladder works before playing", difficulty := "beginner" }
  , { name := "Net", description := "Loose containment of stones"
    , positions := [(0,0), (2,1), (1,2)]
    , colors := ["white", "black", "black"]
    , advice := "The net prevents escape while maintaining connection"
    , difficulty := "intermediate" }
  , { name := "Snapback", description := "Sacrifice to capture back"
    , positions := [(0,0), (1,0), (0,1)]
    , colors := ["black", "white", "white"]
    , advice := "Look for snapback opportunities after captures"
    , difficulty := "intermediate" }
  , { name := "Bamboo Joint", description := "Strong connection shape"
    , positions := [(0,0), (2,0), (1,1)]
    , colors := ["black", "black", "black"]
    , advice := "Bamboo joint is nearly unbreakable", difficulty := "beginner" }
  , { name := "Tiger's Mouth", description := "Powerful capturing shape"
    , positions := [(0,0), (1,0), (0,1), (2,1)]
    , colors := ["black", "black", "black", "black"]
    , advice := "Tiger's mouth threatens multiple cuts", difficulty := "intermediate" } ]

/-- `PatternRecognizer._load_strategic_patterns`. -/
def strategic_patterns : List Pattern :=
  [ { name := "Moyo Formation", description := "Large territorial framework"
    , positions := [(3,3), (6,9), (9,6)]
    , colors := ["black", "black", "black"]
    , advice := "Build moyo with loose stones, then invite invasion"
    , difficulty := "advanced" }
  , { name := "Invasion Point", description := "Weak point for invasion"
    , positions := [(3,3), (6,3), (9,3)]
    , colors := ["white", "empty", "white"]
    , advice := "The 3-3 point is often a good invasion"
    , difficulty := "intermediate" }
  , { name := "Extension Base", description := "Safe development from stones"
    , positions := [(0,0), (3,0)]
    , colors := ["black", "black"]
    , advice := "Two-space extension creates good base", difficulty := "beginner" } ]

/-- The board dict built by `EnhancedGoTutor._create_board_state`:
`(x, y) → color` as an association list. -/
def BoardState := List ((Int × Int) × String)

/-- A `found_patterns` entry of `PatternRecognizer.find_patterns`. -/
structure FoundPattern where
  kind : String
  pattern : Pattern
  location : Option String
  urgency : String
deriving DecidableEq, Repr

/-- `PatternRecognizer._pattern_matches_near_move`: the body is literally
`random.random() < 0.3`, so the result is a function of the draw `r` alone;
board, move and pattern are ignored. -/
def pattern_matches_near_move (_board : BoardState) (_move : Move) (_pattern : Pattern)
    (r : ℚ) : Bool :=
  decide (r < Rat.divInt 3 10)

/-- `PatternRecognizer._strategic_pattern_present`: literally
`random.random() < 0.2`. -/
def strategic_pattern_present (_board : BoardState) (_pattern : Pattern) (r : ℚ) : Bool :=
  decide (r < Rat.divInt 2 10)

/-- `PatternRecognizer.find_patterns`: each tactical pattern is tested near
the recent move, each strategic pattern over the whole board. `rand k` is the
k-th value `random.random()` returns during the call (tactical tests draw
first, in catalog order, then strategic tests). -/
def find_patterns (board_state : BoardState) (recent_move : Move) (rand : Nat → ℚ) :
    List FoundPattern :=
  (tactical_patterns.enum.filterMap fun ke =>
    if pattern_matches_near_move board_state recent_move ke.2 (rand ke.1) then
      some { kind := "tactical"
           , pattern := ke.2
           , location := some recent_move.to_coords
           , urgency := if ke.2.difficulty = "beginner" then "high" else "medium" }
    else none)
  ++ (strategic_patterns.enum.filterMap fun ke =>
    if strategic_pattern_present board_state ke.2 (rand (tactical_patterns.length + ke.1)) then
      some { kind := "strategic", pattern := ke.2, location := none, urgency := "medium" }
    else none)

/-- `MoveAnalyzer._is_corner_area`. -/
def is_corner_area (m : Move) : Bool :=
  decide ((m.x ≤ 5 ∨ 13 ≤ m.x) ∧ (m.y ≤ 5 ∨ 13 ≤ m.y))

/-- `MoveAnalyzer._is_center_area`. -/
def is_center_area (m : Move) : Bool :=
  decide (7 ≤ m.x ∧ m.x ≤ 11 ∧ 7 ≤ m.y ∧ m.y ≤ 11)

/-- `MoveAnalyzer._is_edge_area`. -/
def is_edge_area (m : Move) : Bool :=
  decide (m.x ≤ 2 ∨ 16 ≤ m.x ∨ m.y ≤ 2 ∨ 16 ≤ m.y)

/-- `MoveAnalyzer._estimate_territorial_value`: base 5, +2 for a corner move
in the opening, +3 for an edge move in the endgame, plus the
`random.randint(-2, 2)` draw `jitter`, clamped by `min(10, max(1, ...))`. -/
def estimate_territorial_value (move : Move) (phase : GamePhase) (jitter : Int) : Int :=
  let base : Int := 5
  let base := if phase = .opening ∧ is_corner_area move then base + 2 else base
  let base := if phase = .endgame ∧ is_edge_area move then base + 3 else base
  min 10 (max 1 (base + jitter))

/-- `MoveAnalyzer._estimate_influence_value`: base 5, +3 for a center move,
+1 in opening or middle game, plus the `random.randint(-2, 2)` draw `jitter`,
clamped by `min(10, max(1, ...))`. -/
def estimate_influence_value (move : Move) (phase : GamePhase) (jitter : Int) : Int :=
  let base : Int := 5
  let base := if is_center_area move then base + 3 else base
  let base := if phase = .opening ∨ phase = .middle_game then base + 1 else base
  min 10 (max 1 (base + jitter))

/-! ## real_ogs_connector.py -/

/-- One raw entry of the `moves` list `OGSGameParser._parse_moves` receives:
a JSON array of numbers, a JSON object with optional `x`, `y`, `color`
fields, or anything else (a shape the branch conditions reject, or an entry
whose processing raises and is caught by the per-move handler). -/
inductive RawMove
  | arr (elems : List Int)
  | obj (xField yField : Option Int) (colorField : Option String)
  | malformed
deriving DecidableEq, Repr

/-- One entry of the list `_parse_moves` builds. -/
structure ParsedMove where
  coordinate : String
  color : String
  move_number : Nat
  x : Int
  y : Int
deriving DecidableEq, Repr

/-- The body of `_parse_moves`'s loop at enumeration index `i`: pick
coordinates and color by shape (array entries alternate colors by index and
ignore any third element; object entries default missing coordinates to -1),
then keep the move only when `0 <= x <= 18 and 0 <= y <= 18`, numbering it
`i + 1`. -/
def parse_moves_from : List RawMove → Nat → List ParsedMove
  | [], _ => []
  | move_data :: rest, i =>
    let picked : Option (Int × Int × String) :=
      match move_data with
      | .arr (x :: y :: _) => some (x, y, if i % 2 = 0 then "black" else "white")
      | .arr _ => none
      | .obj xField yField colorField =>
        some (xField.getD (-1), yField.getD (-1),
              colorField.getD (if i % 2 = 0 then "black" else "white"))
      | .malformed => none
    match picked with
    | some (x, y, color) =>
      if 0 ≤ x ∧ x ≤ 18 ∧ 0 ≤ y ∧ y ≤ 18 then
        { coordinate := String.mk (lettersL.getD x.toNat 'A' :: intStr (y + 1))
        , color := color, move_number := i + 1, x := x, y := y }
          :: parse_moves_from rest (i + 1)
      else parse_moves_from rest (i + 1)
    | none => parse_moves_from rest (i + 1)

/-- `OGSGameParser._parse_moves`, starting the enumeration at index 0. -/
def parse_moves (moves_data : List RawMove) : List ParsedMove :=
  parse_moves_from moves_data 0

/-- `LiveOGSTutor._should_provide_tutoring`: tutor when the move count grew
by at least `tutoring_interval` since `last_move_count`, or within the first
5 moves. -/
def should_provide_tutoring (tutoring_interval : Nat) (last_move_count current_move_count : Nat) :
    Bool :=
  decide ((current_move_count : Int) - (last_move_count : Int) ≥ (tutoring_interval : Int))
    || decide (current_move_count ≤ 5)

/-- The sampling behaviour of `LiveOGSTutor._handle_game_update` over a run
of handled events: for each event's move count the tutoring decision is
taken with the held `last_move_count`, and `last_move_count` is then set to
the current count unconditionally (the assignment sits outside the `if`).
Returns the per-event decisions in order. -/
def run_updates (tutoring_interval : Nat) : Nat → List Nat → List Bool
  | _, [] => []
  | last_move_count, current :: rest =>
    should_provide_tutoring tutoring_interval last_move_count current
      :: run_updates tutoring_interval current rest

/-- A parsed JSON value, as far as `monitor_game` inspects one: a string, a
list, or anything else. -/
inductive PyVal
  | pstr (s : String)
  | plist (elems : List PyVal)
  | pother

/-- One inbound websocket message of `RealOGSConnector.monitor_game`:
a `"42"`-prefixed frame whose body `json.loads` either parses (`some`) or
rejects (`none`, the `JSONDecodeError` case), a `"2"`-prefixed keep-alive,
or any other text. -/
inductive Frame
  | f42 (parsed : Option PyVal)
  | ping
  | other

/-- What one iteration of `monitor_game`'s message loop does before the
message-count cutoff is consulted. -/
inductive StepOutcome
  | event (event_type : String) (event_data : PyVal)
  | handledNoEvent
  | pong
  | skipped
  | jsonErrorLogged

/-- The per-message dispatch of `monitor_game`: a `"42"` frame whose body
parses to a list of length ≥ 2 headed by `"game/move"` or `"game/gamedata"`
invokes the callback; other well-formed bodies do nothing; a body that fails
to parse is caught by the `except json.JSONDecodeError` handler and only
logged; a `"2"` frame is answered with a pong; anything else falls through. -/
def step : Frame → StepOutcome
  | .f42 none => .jsonErrorLogged
  | .f42 (some v) =>
    match v with
    | .plist (first :: second :: _) =>
      match first with
      | .pstr event_type =>
        if event_type = "game/move" ∨ event_type = "game/gamedata" then
          .event event_type second
        else .handledNoEvent
      | _ => .handledNoEvent
    | _ => .handledNoEvent
  | .ping => .pong
  | .other => .skipped

/-- Observable outcome of `monitor_game`'s loop: the callback invocations in
arrival order, the pongs sent, and whether the loop stopped at the 100-message
cutoff rather than at the end of the stream. No constructor models an
escaping exception: every per-message failure is caught by the loop's
`except` handlers. -/
structure MonitorResult where
  events : List (String × PyVal)
  pongs : Nat
  cappedEarly : Bool

/-- `monitor_game`'s message loop with `count` messages already received.
Each message increments the count and is dispatched by `step`; afterwards
`if message_count > 100: break` ends the loop — except that a
`JSONDecodeError` jumps straight to its handler, skipping that check for the
current iteration. -/
def monitor_loop : List Frame → Nat → MonitorResult
  | [], _ => { events := [], pongs := 0, cappedEarly := false }
  | f :: rest, count =>
    let c := count + 1
    match step f with
    | .jsonErrorLogged => monitor_loop rest c
    | .event t p =>
      if c > 100 then { events := [(t, p)], pongs := 0, cappedEarly := true }
      else
        let r := monitor_loop rest c
        { r with events := (t, p) :: r.events }
    | .pong =>
      if c > 100 then { events := [], pongs := 1, cappedEarly := true }
      else
        let r := monitor_loop rest c
        { r with pongs := r.pongs + 1 }
    | .handledNoEvent =>
      if c > 100 then { events := [], pongs := 0, cappedEarly := true }
      else monitor_loop rest c
    | .skipped =>
      if c > 100 then { events := [], pongs := 0, cappedEarly := true }
      else monitor_loop rest c

/-! ## Helper lemmas -/

/-- A successful `List.findSome?` comes from some member of the list. -/
theorem exists_mem_of_findSome? {α β : Type} {f : α → Option β} :
    ∀ {l : List α} {b : β}, l.findSome? f = some b → ∃ a ∈ l, f a = some b := by
  intro l
  induction l with
  | nil => intro b h; simp [List.findSome?] at h
  | cons a t ih =>
    intro b h
    rw [List.findSome?_cons] at h
    cases hfa : f a with
    | some c =>
      rw [hfa] at h
      exact ⟨a, List.mem_cons_self a t, by rw [hfa]; exact h⟩
    | none =>
      rw [hfa] at h
      obtain ⟨x, hx, hfx⟩ := ih h
      exact ⟨x, List.mem_cons_of_mem a hx, hfx⟩

/-- Every match `check_joseki` returns is complete: the loop bound
`range(len(recent_moves) - len(joseki_moves) + 1)` admits only start indices
at which a full-length slice fits, so a returned `sequence` always has the
record's whole length. -/
theorem check_joseki_complete {recent : List String} {m : JosekiMatchInfo}
    (h : check_joseki recent = some m) : m.is_complete = true := by
  unfold check_joseki at h
  split at h
  · simp at h
  · obtain ⟨j, _, hinner⟩ := exists_mem_of_findSome? h
    obtain ⟨i, hi, hcond⟩ := exists_mem_of_findSome? hinner
    simp only [] at hcond
    split at hcond
    · have hlen : ((recent.drop i).take j.moves.length).length = j.moves.length := by
        unfold pyRange at hi
        split at hi
        · simp at hi
        · rw [List.mem_range] at hi
          rw [List.length_take, List.length_drop]
          omega
      cases hcond
      simp [hlen]
    · simp at hcond

/-! ## Claim theorems -/

/-- C1: `check_joseki` on the full window `["D4","Q16","R14","Q14"]` returns
the "3-4 Point Approach" record with 4 of 4 moves matched and complete; but
on the prefix window `["D4","Q16"]` it returns `None` — the claimed partial
(prefix) alignment with `matchedMoves = 2`, incomplete, never happens,
because the loop bound only ever compares full-length windows; indeed every
match the function can return is complete. -/
theorem joseki_partial_window_unmatched :
    (check_joseki ["D4", "Q16", "R14", "Q14"]).map
        (fun m => (m.joseki.name, m.matched_moves, m.total_moves, m.is_complete))
      = some ("3-4 Point Approach", 4, 4, true)
    ∧ check_joseki ["D4", "Q16"] = none
    ∧ ∀ (recent : List String) (m : JosekiMatchInfo),
        check_joseki recent = some m → m.matched_moves = m.total_moves :=
  ⟨by decide, by decide, by
    intro recent m h
    have hc := check_joseki_complete h
    unfold check_joseki at h
    split at h
    · simp at h
    · obtain ⟨j, _, hinner⟩ := exists_mem_of_findSome? h
      obtain ⟨i, hi, hcond⟩ := exists_mem_of_findSome? hinner
      simp only [] at hcond
      split at hcond
      · have hlen : ((recent.drop i).take j.moves.length).length = j.moves.length := by
          unfold pyRange at hi
          split at hi
          · simp at hi
          · rw [List.mem_range] at hi
            rw [List.length_take, List.length_drop]
            omega
        cases hcond
        simpa using hlen
      · simp at hcond⟩

/-- C3: with `tutoring_interval = 5` and one handled event per move count
1..10, the decisions are passes at counts 1..5 and none afterwards — in
particular none at count 10, because `last_move_count` is assigned the
current count on every event, not only when a pass runs; had it still been 5
at count 10, `_should_provide_tutoring` itself would have passed. -/
theorem tutoring_sampling_stalls :
    run_updates 5 0 [1, 2, 3, 4, 5, 6, 7, 8, 9, 10]
      = [true, true, true, true, true, false, false, false, false, false]
    ∧ should_provide_tutoring 5 5 10 = true := by
  decide

/-- C4: `find_patterns` is not a function of the board and move alone: two
calls with the identical (empty) board and identical move, differing only in
what `random.random()` returns (all draws 0.0 versus all draws 0.5 — both in
[0, 1)), yield different outputs: every pattern is reported in the first
call and none in the second. -/
theorem find_patterns_random_divergence :
    find_patterns [] ⟨3, 3, "black", 1⟩ (fun _ => 0)
      ≠ find_patterns [] ⟨3, 3, "black", 1⟩ (fun _ => Rat.divInt 1 2)
    ∧ (find_patterns [] ⟨3, 3, "black", 1⟩ (fun _ => 0)).length = 8
    ∧ (find_patterns [] ⟨3, 3, "black", 1⟩ (fun _ => Rat.divInt 1 2)).length = 0 := by
  decide

/-- C7: `_determine_phase` is total with the claimed thresholds — every
count is classified, below 30 as opening, in [30, 120) as middle game, from
120 on as endgame — the boundary counts 29/30/119/120 land as the claim
states, and the classification is monotone in the move count. -/
theorem determine_phase_thresholds_monotone :
    (∀ n : Nat,
        (n < 30 ∧ determine_phase n = .opening)
        ∨ (30 ≤ n ∧ n < 120 ∧ determine_phase n = .middle_game)
        ∨ (120 ≤ n ∧ determine_phase n = .endgame))
    ∧ determine_phase 29 = .opening
    ∧ determine_phase 30 = .middle_game
    ∧ determine_phase 119 = .middle_game
    ∧ determine_phase 120 = .endgame
    ∧ ∀ n k : Nat, phase_rank (determine_phase n) ≤ phase_rank (determine_phase (n + k)) := by
  refine ⟨?_, by decide, by decide, by decide, by decide, ?_⟩
  · intro n
    unfold determine_phase
    split_ifs with h1 h2
    · exact Or.inl ⟨h1, rfl⟩
    · exact Or.inr (Or.inl ⟨by omega, h2, rfl⟩)
    · exact Or.inr (Or.inr ⟨by omega, rfl⟩)
  · intro n k
    unfold determine_phase
    split_ifs <;> simp [phase_rank] <;> omega

/-- C8: a `"42"` frame whose body fails JSON parsing is handled by the
`except json.JSONDecodeError` branch: it is only logged (`jsonErrorLogged`),
invokes no callback, raises nothing, and the loop goes on to process the
remaining frames exactly as if restarted on them — for every suffix and
every message count, including counts past the 100-message cutoff. -/
theorem malformed_frame_nonfatal :
    step (Frame.f42 none) = .jsonErrorLogged
    ∧ ∀ (rest : List Frame) (count : Nat),
        monitor_loop (Frame.f42 none :: rest) count = monitor_loop rest (count + 1) :=
  ⟨rfl, fun _ _ => rfl⟩

/-- C9: for every move, every phase and every jitter draw in
`randint(-2, 2)`'s range, the territorial and influence estimates are
integers in [1, 10] — the `min(10, max(1, ...))` clamp guarantees it. -/
theorem score_bounds (move : Move) (phase : GamePhase) (jt ji : Int)
    (h1 : -2 ≤ jt) (h2 : jt ≤ 2) (h3 : -2 ≤ ji) (h4 : ji ≤ 2) :
    1 ≤ estimate_territorial_value move phase jt
    ∧ estimate_territorial_value move phase jt ≤ 10
    ∧ 1 ≤ estimate_influence_value move phase ji
    ∧ estimate_influence_value move phase ji ≤ 10 := by
  have clamp : ∀ v : Int, 1 ≤ min 10 (max 1 v) ∧ min 10 (max 1 v) ≤ 10 := by
    intro v
    constructor <;> rw [min_def, max_def] <;> split_ifs <;> omega
  unfold estimate_territorial_value estimate_influence_value
  exact ⟨(clamp _).1, (clamp _).2, (clamp _).1, (clamp _).2⟩

/-- Witness for C9 at a concrete move, phase and jitter. -/
theorem score_bounds_witness :
    1 ≤ estimate_territorial_value ⟨3, 3, "black", 1⟩ .opening 2
    ∧ estimate_territorial_value ⟨3, 3, "black", 1⟩ .opening 2 ≤ 10
    ∧ 1 ≤ estimate_influence_value ⟨3, 3, "black", 1⟩ .opening (-2)
    ∧ estimate_influence_value ⟨3, 3, "black", 1⟩ .opening (-2) ≤ 10 :=
  score_bounds ⟨3, 3, "black", 1⟩ .opening 2 (-2)
    (by decide) (by decide) (by decide) (by decide)

/-- C10: a coordinate string whose first character upper-cases to something
outside the 19-letter board alphabet, with a numeric tail `n`, parses
silently to column `x = 0` and row `y = n - 1`: the `else 0` arm of
`letters.index(letter) if letter in letters else 0` maps every unknown
letter, including the excluded "I", to column A, with no default
substitution, drop or flag. -/
theorem unknown_letter_column_a (c : Char) (tail : List Char) (color : String)
    (k : Nat) (n : Int) (h1 : c.toUpper ∉ lettersL) (h2 : pyInt tail = some n) :
    parse_coordinate (String.mk (c :: tail)) color k
      = some { x := 0, y := n - 1, color := color, move_number := k } := by
  cases tail with
  | nil => simp [pyInt, digitsVal] at h2
  | cons c2 rest =>
    unfold parse_coordinate
    rw [show (String.mk (c :: c2 :: rest)).toList = c :: c2 :: rest from rfl]
    simp only [h2, if_neg h1]

/-- Witness for C10 at the excluded letter "I": `"I5"` parses to (0, 4). -/
theorem unknown_letter_column_a_witness :
    'I'.toUpper ∉ lettersL
    ∧ pyInt ['5'] = some 5
    ∧ parse_coordinate (String.mk ('I' :: ['5'])) "black" 7
        = some (Move.mk 0 (5 - 1) "black" 7) :=
  ⟨by decide, by decide, unknown_letter_column_a 'I' ['5'] "black" 7 5 (by decide) (by decide)⟩

/-- C5 (amended): the default (3,3) is substituted exactly for coordinate
strings shorter than 2 characters, and the substitution is silent: the
result carries no flag and is identical, field for field, to what parsing
the genuine string "D4" produces, so the caller cannot observe it. -/
theorem parse_coordinate_default_silent (coord color : String) (k : Nat)
    (h : coord.length < 2) :
    parse_coordinate coord color k = some (Move.mk 3 3 color k)
    ∧ parse_coordinate coord color k = parse_coordinate "D4" color k := by
  have hD : parse_coordinate "D4" color k = some (Move.mk 3 3 color k) := rfl
  have hlen : coord.toList.length < 2 := h
  have hshort : parse_coordinate coord color k = some (Move.mk 3 3 color k) := by
    unfold parse_coordinate
    cases hl : coord.toList with
    | nil => rfl
    | cons a t =>
      cases t with
      | nil => rfl
      | cons b u =>
        rw [hl] at hlen
        simp only [List.length_cons] at hlen
        omega
  exact ⟨hshort, hshort.trans hD.symm⟩

/-- Witness for C5's amended statement at the empty coordinate string. -/
theorem parse_coordinate_default_silent_witness :
    ("" : String).length < 2
    ∧ (parse_coordinate "" "black" 1 = some (Move.mk 3 3 "black" 1)
       ∧ parse_coordinate "" "black" 1 = parse_coordinate "D4" "black" 1) :=
  ⟨by decide, parse_coordinate_default_silent "" "black" 1 (by decide)⟩

/-- Counterexample for C5 as stated: the unparseable string "X" is replaced
by the default (3,3) and the result equals, in every field, the result of
parsing the valid string "D4" — nothing in the output flags or records the
substitution, so it is not observable to the caller. -/
theorem parse_coordinate_observability_counterexample :
    parse_coordinate "X" "black" 1 = some (Move.mk 3 3 "black" 1)
    ∧ parse_coordinate "D4" "black" 1 = some (Move.mk 3 3 "black" 1)
    ∧ parse_coordinate "X" "black" 1 = parse_coordinate "D4" "black" 1 := by
  decide

/-- Every move `_parse_moves` keeps passed its range check, and is numbered
by its raw index plus one, which exceeds the enumeration start. -/
theorem parse_moves_from_mem :
    ∀ (raw : List RawMove) (i : Nat) (m : ParsedMove), m ∈ parse_moves_from raw i →
      (0 ≤ m.x ∧ m.x ≤ 18 ∧ 0 ≤ m.y ∧ m.y ≤ 18) ∧ i < m.move_number := by
  intro raw
  induction raw with
  | nil => intro i m hm; simp [parse_moves_from] at hm
  | cons hd tl ih =>
    intro i m hm
    simp only [parse_moves_from] at hm
    split at hm
    · split at hm
      · rcases List.mem_cons.mp hm with rfl | hmem
        · rename_i x y color heq hcond
          exact ⟨hcond, Nat.lt_succ_self i⟩
        · have := ih (i + 1) m hmem
          exact ⟨this.1, by omega⟩
      · have := ih (i + 1) m hm
        exact ⟨this.1, by omega⟩
    · have := ih (i + 1) m hm
      exact ⟨this.1, by omega⟩

/-- The move numbers `_parse_moves` emits are strictly increasing. -/
theorem parse_moves_from_chain :
    ∀ (raw : List RawMove) (i : Nat),
      List.Chain' (· < ·) ((parse_moves_from raw i).map (·.move_number)) := by
  intro raw
  induction raw with
  | nil => intro i; simp [parse_moves_from]
  | cons hd tl ih =>
    intro i
    simp only [parse_moves_from]
    split
    · split
      · rw [List.map_cons, List.chain'_cons']
        refine ⟨?_, ih (i + 1)⟩
        intro b hb
        obtain ⟨m, hm, rfl⟩ := List.mem_map.mp (List.mem_of_mem_head? hb)
        exact (parse_moves_from_mem tl (i + 1) m hm).2
      · exact ih (i + 1)
    · exact ih (i + 1)

/-- C2 (amended): `_parse_moves` never stores a move whose coordinate lies
outside [0,18]², and the surviving move numbers are strictly increasing;
but a survivor keeps `raw index + 1` as its number, so after a drop the
numbering has a gap instead of being renumbered contiguously from 1 — the
raw list with x=25 in its second entry loses exactly that entry and keeps
numbers 1 and 3. -/
theorem parse_moves_drop_out_of_range :
    (∀ raw : List RawMove,
      ((parse_moves raw).all fun m =>
          decide (0 ≤ m.x ∧ m.x ≤ 18 ∧ 0 ≤ m.y ∧ m.y ≤ 18)) = true
      ∧ List.Chain' (· < ·) ((parse_moves raw).map (·.move_number)))
    ∧ (parse_moves [.arr [3, 3], .arr [25, 5], .arr [4, 4]]).map
        (fun m => (m.x, m.y, m.move_number)) = [(3, 3, 1), (4, 4, 3)] := by
  refine ⟨?_, by decide⟩
  intro raw
  constructor
  · rw [List.all_eq_true]
    intro m hm
    exact decide_eq_true (parse_moves_from_mem raw 0 m hm).1
  · exact parse_moves_from_chain raw 0

/-- Counterexample for C2 as stated: dropping the out-of-range second entry
leaves move numbers [1, 3], not the contiguous-from-1 renumbering [1, 2]
the claim asserts. -/
theorem parse_moves_noncontiguous_counterexample :
    (parse_moves [.arr [3, 3], .arr [25, 5], .arr [4, 4]]).length = 2
    ∧ (parse_moves [.arr [3, 3], .arr [25, 5], .arr [4, 4]]).map (·.move_number) = [1, 3]
    ∧ (parse_moves [.arr [3, 3], .arr [25, 5], .arr [4, 4]]).map (·.move_number)
        ≠ (List.range (parse_moves [.arr [3, 3], .arr [25, 5], .arr [4, 4]]).length).map
            (· + 1) := by
  decide

/-- Proof device for the round trip: the coordinate computation of
`parse_coordinate`, separated from the color and move-number pass-through. -/
def parseXY (coord : String) : Option (Int × Int) :=
  match coord.toList with
  | c :: c2 :: rest =>
    match pyInt (c2 :: rest) with
    | none => none
    | some number =>
      some ((if c.toUpper ∈ lettersL then ((lettersL.indexOf c.toUpper : Nat) : Int) else 0),
            number - 1)
  | _ => some (3, 3)

/-- `parse_coordinate` threads color and move number through unchanged
around the coordinate computation. -/
theorem parse_coordinate_eq_parseXY (coord color : String) (k : Nat) :
    parse_coordinate coord color k
      = (parseXY coord).map (fun p => Move.mk p.1 p.2 color k) := by
  unfold parse_coordinate parseXY
  cases hl : coord.toList with
  | nil => rfl
  | cons a t =>
    cases t with
    | nil => rfl
    | cons b u =>
      cases hp : pyInt (b :: u) <;> simp [hp]

/-- The coordinate computation inverts `to_coords` on all 361 board points. -/
theorem parseXY_to_coords : ∀ x y : Fin 19,
    parseXY (Move.to_coords (Move.mk ((x : Nat) : Int) ((y : Nat) : Int) "" 0))
      = some (((x : Nat) : Int), ((y : Nat) : Int)) := by
  decide

/-- C6: for every board point (x, y) in [0,18]², rendering it with
`to_coords` (the 19-letter alphabet that skips "I", then `y + 1`) and
parsing the string back with `_parse_coordinate` returns exactly (x, y),
whatever color and move number ride along. -/
theorem coordinate_round_trip (x y : Fin 19) (color : String) (k : Nat)
    (color2 : String) (k2 : Nat) :
    parse_coordinate (Move.to_coords (Move.mk ((x : Nat) : Int) ((y : Nat) : Int) color k))
        color2 k2
      = some (Move.mk ((x : Nat) : Int) ((y : Nat) : Int) color2 k2) := by
  have h1 : Move.to_coords (Move.mk ((x : Nat) : Int) ((y : Nat) : Int) color k)
      = Move.to_coords (Move.mk ((x : Nat) : Int) ((y : Nat) : Int) "" 0) := rfl
  rw [parse_coordinate_eq_parseXY, h1, parseXY_to_coords x y]
  rfl

end GoTutor
